import Mathlib

/-
Verification of the training script `trainer.py` of the unet-skel-2d
repository (a 2D U-Net skeleton-segmentation trainer).

The script is embedded shallowly: each run of `train` / `main` is modelled as
a pure function producing the outcome (returned value or uncaught exception)
together with the ordered trace of observable events it performs (RNG
seeding, prints, directory creation, component construction, the per-step
training actions, metric emission, snapshotting, and the final flush).
Scalar values (losses, learning rate) are modelled as integers (an
abstraction of real scalars adequate for the structural properties proved
below, none of which divides or compares scalars); tensors and
the imported collaborators (`Unet2D_simple`, `DiceLoss`,
`BCEWithLogitsLoss`, `WeightedFocalLoss`, `sigmoid_focal_loss`, `sk_loader`)
are kept abstract, exactly as `train` itself receives its criterion as the
opaque parameter `loss_fn`.
-/

namespace UnetSkel

/-- Scalar loss and hyperparameter values of trainer.py, modelled as
integers: the claims below are structural (sums of loss terms, traces,
schedules) and never divide or compare scalars, so any commutative ring
models them; integers keep every statement decidably evaluable. -/
abbrev Scalar := ℤ

/-- A batch yielded by the data loader: the tensors accessed as the image and
the mask of the batch (trainer.py lines 32-33), over an abstract tensor
type `T`. -/
structure Batch (T : Type) where
  image : T
  mask : T

/-- Observable events of one run of trainer.py, in program order. -/
inductive Event where
  | seedNumpy (s : Nat)
  | seedTorch (s : Nat)
  | seedTorchCuda (s : Nat)
  | printLine (msg : String)
  | makedirs (path : String)
  | loadSpecs (path : String)
  | constructModel
  | constructOptimizer (lr : Scalar)
  | constructLoader (imagesDir labelsDir : String)
  | constructWriter (dir : String)
  | setTrainMode
  | zeroGrad
  | forward
  | computeLoss (l1 l2 l : Scalar)
  | backward (l : Scalar)
  | optimStep
  | accumulate (running dice focal : Scalar)
  | addScalar (tag : String) (value : Scalar) (epoch : Nat)
  | saveLatest (dir : String) (epoch : Nat)
  | saveCheckpoint (dir : String) (epoch : Nat)
  | flush
deriving DecidableEq

/-- Constructor tag of an event, used to state trace shapes. The six
per-step actions of the inner batch loop get the tags 0 to 5. -/
def Event.kind : Event → Nat
  | .zeroGrad => 0
  | .forward => 1
  | .computeLoss _ _ _ => 2
  | .backward _ => 3
  | .optimStep => 4
  | .accumulate _ _ _ => 5
  | .addScalar _ _ _ => 6
  | .printLine _ => 7
  | .saveLatest _ _ => 8
  | .saveCheckpoint _ _ => 9
  | .flush => 10
  | .setTrainMode => 11
  | .seedNumpy _ => 12
  | .seedTorch _ => 13
  | .seedTorchCuda _ => 14
  | .makedirs _ => 15
  | .loadSpecs _ => 16
  | .constructModel => 17
  | .constructOptimizer _ => 18
  | .constructLoader _ _ => 19
  | .constructWriter _ => 20

/-- Whether an event is a backward pass. -/
def Event.isBackward : Event → Bool
  | .backward _ => true
  | _ => false

/-- The three running scalar accumulators of the epoch loop:
`running_loss`, `dice_loss`, `focal_loss` (trainer.py lines 27-29). -/
structure Sums where
  running_loss : Scalar
  dice_loss : Scalar
  focal_loss : Scalar
deriving DecidableEq

/-- One iteration of the inner batch loop (trainer.py lines 30-42): zero the
gradients, forward pass on the image, the criterion loss `loss1`, the
framework focal loss `loss2`, their sum `loss`, backward, optimizer step,
and accumulation of the three running sums. Returns the updated sums and
the emitted events. -/
def trainStep {T L : Type} (model : T → L) (loss_fn s_focal : L → T → Scalar)
    (acc : Sums) (data : Batch T) : Sums × List Event :=
  let inp_logits := model data.image
  let loss1 := loss_fn inp_logits data.mask
  let loss2 := s_focal inp_logits data.mask
  let loss := loss1 + loss2
  let acc2 : Sums := ⟨acc.running_loss + loss, acc.dice_loss + loss1, acc.focal_loss + loss2⟩
  (acc2, [.zeroGrad, .forward, .computeLoss loss1 loss2 loss, .backward loss, .optimStep,
          .accumulate acc2.running_loss acc2.dice_loss acc2.focal_loss])

/-- The inner batch loop of trainer.py, folded over the loader's batches. -/
def runSteps {T L : Type} (model : T → L) (loss_fn s_focal : L → T → Scalar) :
    List (Batch T) → Sums → Sums × List Event
  | [], acc => (acc, [])
  | d :: ds, acc =>
    let p := trainStep model loss_fn s_focal acc d
    let q := runSteps model loss_fn s_focal ds p.1
    (q.1, p.2 ++ q.2)

/-- Value of the selected criterion on a batch, after the forward pass
(`loss1` of trainer.py line 35). -/
def batchLoss1 {T L : Type} (model : T → L) (loss_fn : L → T → Scalar)
    (d : Batch T) : Scalar :=
  loss_fn (model d.image) d.mask

/-- Value of the framework focal loss on a batch, after the forward pass
(`loss2` of trainer.py line 36). -/
def batchLoss2 {T L : Type} (model : T → L) (s_focal : L → T → Scalar)
    (d : Batch T) : Scalar :=
  s_focal (model d.image) d.mask

/-- One iteration of the epoch loop (trainer.py lines 25-51): set train mode,
reset the three running sums to zero, run the batch loop, emit the three
scalars tagged by the epoch, print the summary line, save the latest
snapshot unconditionally, and checkpoint exactly when
`epoch mod save_every = 0`. -/
def trainEpoch {T L : Type} (model : T → L) (loss_fn s_focal : L → T → Scalar)
    (batches : List (Batch T)) (exp_dir : String) (save_every epoch : Nat) :
    List Event :=
  let r := runSteps model loss_fn s_focal batches ⟨0, 0, 0⟩
  [Event.setTrainMode] ++ r.2 ++
  [.addScalar "Loss/overall" r.1.running_loss epoch,
   .addScalar "Loss/dice" r.1.dice_loss epoch,
   .addScalar "Loss/focal" r.1.focal_loss epoch,
   .printLine ("Epoch:" ++ toString epoch ++ " | Running Loss:" ++ toString r.1.running_loss),
   .saveLatest exp_dir epoch] ++
  (if epoch % save_every = 0 then [.saveCheckpoint exp_dir epoch] else [])

/-- The training loop `train` (trainer.py lines 24-52): the epoch loop over
epochs 1..epochs followed by the single writer flush. The data loader is
modelled as the per-epoch sequence of batches it yields (the loader is
restartable and reshuffles on each pass). -/
def train {T L : Type} (model : T → L) (loss_fn s_focal : L → T → Scalar)
    (train_loader : Nat → List (Batch T)) (epochs : Nat) (exp_dir : String)
    (save_every : Nat) : List Event :=
  ((List.range' 1 epochs).map fun epoch =>
    trainEpoch model loss_fn s_focal (train_loader epoch) exp_dir save_every epoch).flatten
  ++ [Event.flush]

/-- The experiment configuration record read from specs.json
(trainer.py lines 76-83). -/
structure Specs where
  DataSource : String
  LearningRate : Scalar
  Epochs : Nat
  SaveEvery : Nat
  BatchSize : Nat
  Debug : Bool
  NumDebug : Nat
  LossFunction : String

/-- The parts of the filesystem `main` consults: directory existence, and the
parsed specs.json found at a path when present (`none` models a missing
file, whose `open` raises FileNotFoundError). -/
structure FS where
  isdir : String → Bool
  specsFile : String → Option Specs

/-- The global random-number-generator states mutated by the three seeding
calls at the top of `main` (trainer.py lines 57-59). -/
structure RngState where
  numpy : Nat
  torchCpu : Nat
  torchCuda : Nat

/-- The parsed command-line arguments: the one experiment-directory option. -/
structure Args where
  exp_dir : String

/-- Outcome of a run of `main`: an explicit sentinel return, a normal fall
through after training, or an uncaught exception. -/
inductive MainOutcome where
  | sentinel (v : Nat)
  | normal
  | raised (exc : String)
deriving DecidableEq

/-- Model of os.path.join for the paths built in `main`. -/
def joinPath (a b : String) : String := a ++ "/" ++ b

/-- The conditional directory creations of `main` (trainer.py lines 69-72):
each of the checkpoint and evaluation directories is created when absent. -/
def mkdirEvents (fs : FS) (checkpt_dir eval_dir : String) : List Event :=
  (if fs.isdir checkpt_dir = false then [.makedirs checkpt_dir] else []) ++
  (if fs.isdir eval_dir = false then [.makedirs eval_dir] else [])

/-- Modelled from the spec: `checkpoint_subdir` lives in the workspace module
utils/misc, which is absent from the source tree; the spec names the produced
layout exp_dir/checkpoints. -/
def checkpoint_subdir : String := "checkpoints"

/-- Modelled from the spec: `evaluation_subdir` lives in the workspace module
utils/misc, which is absent from the source tree; the spec names the produced
layout exp_dir/evaluation. -/
def evaluation_subdir : String := "evaluation"

/-- Modelled from the spec: the collaborators trainer.py imports whose source
files are absent from the tree (models.Unet2D_simple, utils.loss.DiceLoss and
WeightedFocalLoss, torch.nn.BCEWithLogitsLoss, torchvision's
sigmoid_focal_loss with mean reduction, utils.data.sk_loader). Each is an
abstract function; the model initializer draws on the torch CPU and CUDA RNG
states and the loader's shuffling draws on the numpy RNG state, passed
explicitly, and the loader yields its batches per epoch pass. -/
structure Env (T L : Type) where
  unet2d : Nat → Nat → T → L
  diceLoss : L → T → Scalar
  bceWithLogitsLoss : L → T → Scalar
  weightedFocalLoss : L → T → Scalar
  sigmoid_focal_loss : L → T → Scalar
  sk_loader : String → String → Nat → Bool → Nat → Nat → Nat → List (Batch T)

/-- The events of `main` from the top through optimizer construction, in the
case where the experiment directory exists and specs.json parses
(trainer.py lines 57-93): the three seedings, the conditional directory
creations, the configuration load and prints, and the construction of the
model and of the Adam optimizer — all of which happen before the
loss-function check. -/
def preEvents (fs : FS) (args : Args) (specs : Specs) : List Event :=
  [.seedNumpy 2020, .seedTorch 2020, .seedTorchCuda 2020] ++
  mkdirEvents fs (joinPath args.exp_dir checkpoint_subdir)
    (joinPath args.exp_dir evaluation_subdir) ++
  [.loadSpecs (joinPath args.exp_dir "specs.json"),
   .printLine ("Learning Rate:" ++ toString specs.LearningRate ++
     " | Epochs:" ++ toString specs.Epochs ++
     " | BatchSize:" ++ toString specs.BatchSize),
   .printLine ("Training data dir: " ++ specs.DataSource)] ++
  [.constructModel, .constructOptimizer specs.LearningRate]

/-- The tail of `main` after the criterion is selected (trainer.py lines
105-112): construct the data loader from the images and labels directories,
print, construct the metrics writer, and delegate to `train`. -/
def mainRun {T L : Type} (env : Env T L) (model : T → L)
    (criterion : L → T → Scalar) (rng : RngState) (specs : Specs)
    (experiment_dir : String) (pre : List Event) : MainOutcome × List Event :=
  let trn_images_dir := joinPath specs.DataSource "images"
  let trn_labels_dir := joinPath specs.DataSource "labels"
  let loader := fun epoch =>
    env.sk_loader trn_images_dir trn_labels_dir specs.BatchSize specs.Debug
      specs.NumDebug rng.numpy epoch
  (.normal,
   pre ++
   [.constructLoader trn_images_dir trn_labels_dir,
    .printLine "Begin Training.......",
    .constructWriter experiment_dir] ++
   train model criterion env.sigmoid_focal_loss loader specs.Epochs
     experiment_dir specs.SaveEvery)

/-- The entry point `main` (trainer.py lines 55-112): seed the three RNGs
with 2020, validate the experiment directory (print and return 0 when
missing), create the checkpoint and evaluation subdirectories when absent,
open specs.json (raising FileNotFoundError when missing), print the
configuration, construct the model and the Adam optimizer, select the
criterion by the LossFunction string (print and return 0 when unrecognized),
then build the loader and writer and run the training loop. -/
def main {T L : Type} (env : Env T L) (fs : FS) (rng0 : RngState)
    (args : Args) : MainOutcome × List Event :=
  let rng1 : RngState := { rng0 with numpy := 2020 }
  let rng2 : RngState := { rng1 with torchCpu := 2020 }
  let rng : RngState := { rng2 with torchCuda := 2020 }
  let seedEvs : List Event := [.seedNumpy 2020, .seedTorch 2020, .seedTorchCuda 2020]
  if fs.isdir args.exp_dir = false then
    (.sentinel 0,
     seedEvs ++ [.printLine ("[ERROR] Experiment dir " ++ args.exp_dir ++ " does not exist!")])
  else
    let experiment_dir := args.exp_dir
    let checkpt_dir := joinPath experiment_dir checkpoint_subdir
    let eval_dir := joinPath experiment_dir evaluation_subdir
    let mkEvs : List Event := mkdirEvents fs checkpt_dir eval_dir
    match fs.specsFile (joinPath experiment_dir "specs.json") with
    | none => (.raised "FileNotFoundError", seedEvs ++ mkEvs)
    | some specs =>
      let model := env.unet2d rng.torchCpu rng.torchCuda
      let preEvs := preEvents fs args specs
      if specs.LossFunction = "Dice" then
        mainRun env model env.diceLoss rng specs experiment_dir
          (preEvs ++ [.printLine "Using the DiceLoss as the loss function"])
      else if specs.LossFunction = "BCE" then
        mainRun env model env.bceWithLogitsLoss rng specs experiment_dir
          (preEvs ++ [.printLine "Using the BCEWithLogits as the loss function"])
      else
        (.sentinel 0,
         preEvs ++ [.printLine "Loss function specified in experiment specs.json is not recognized!"])

/-- A concrete environment over unit tensors used to evaluate the model on
closed inputs: the four loss functions return the distinguishable constants
1 (Dice), 3 (BCEWithLogits), 4 (weighted focal), 9 (framework focal), and
the loader yields one batch per epoch. -/
def envU : Env Unit Unit where
  unet2d := fun _ _ _ => ()
  diceLoss := fun _ _ => 1
  bceWithLogitsLoss := fun _ _ => 3
  weightedFocalLoss := fun _ _ => 4
  sigmoid_focal_loss := fun _ _ => 9
  sk_loader := fun _ _ _ _ _ _ _ => [⟨(), ()⟩]

/-- A one-epoch experiment configuration with the given loss-function name. -/
def specsWith (lf : String) : Specs :=
  ⟨"data", 1, 1, 1, 4, false, 0, lf⟩

/-- A filesystem where every directory exists and every specs.json read
yields the given configuration. -/
def fsWith (s : Specs) : FS :=
  ⟨fun _ => true, fun _ => some s⟩

/-- A filesystem where every directory exists but no specs.json is found. -/
def fsNoSpecs : FS :=
  ⟨fun _ => true, fun _ => none⟩

/-- A filesystem with no directories at all. -/
def fsNoDir : FS :=
  ⟨fun _ => false, fun _ => none⟩

/-- Every event of the conditional directory creations is a `makedirs`. -/
theorem mem_mkdirEvents {fs : FS} {a b : String} {e : Event}
    (he : e ∈ mkdirEvents fs a b) : e.kind = 15 := by
  rcases List.mem_append.1 he with h | h <;>
    [skip; skip] <;>
    · revert h
      split <;> simp_all [Event.kind]

/-- The running sums after the batch loop are the starting sums plus the
per-batch sums of the combined loss, the criterion loss, and the focal loss. -/
theorem runSteps_fst {T L : Type} (model : T → L) (f g : L → T → Scalar)
    (bs : List (Batch T)) (acc : Sums) :
    (runSteps model f g bs acc).1 =
      ⟨acc.running_loss + ((bs.map fun d => batchLoss1 model f d + batchLoss2 model g d).sum),
       acc.dice_loss + ((bs.map (batchLoss1 model f)).sum),
       acc.focal_loss + ((bs.map (batchLoss2 model g)).sum)⟩ := by
  induction bs generalizing acc with
  | nil => simp [runSteps]
  | cons d ds ih =>
    simp only [runSteps, trainStep, ih, List.map_cons, List.sum_cons,
      batchLoss1, batchLoss2, Sums.mk.injEq]
    refine ⟨by ring, by ring, by ring⟩

/-- The batch loop emits, per batch, exactly the six per-step actions in
order: zero gradients, forward, loss computation, backward, optimizer step,
accumulation. -/
theorem runSteps_kinds {T L : Type} (model : T → L) (f g : L → T → Scalar)
    (bs : List (Batch T)) (acc : Sums) :
    (runSteps model f g bs acc).2.map Event.kind =
      (bs.map fun _ => [0, 1, 2, 3, 4, 5]).flatten := by
  induction bs generalizing acc with
  | nil => simp [runSteps]
  | cons d ds ih => simp [runSteps, trainStep, Event.kind, ih]

/-- Every event of the batch loop is one of the six per-step actions. -/
theorem mem_runSteps_kind_le {T L : Type} {model : T → L} {f g : L → T → Scalar}
    {bs : List (Batch T)} {acc : Sums} {e : Event}
    (he : e ∈ (runSteps model f g bs acc).2) : e.kind ≤ 5 := by
  have h : e.kind ∈ (runSteps model f g bs acc).2.map Event.kind :=
    List.mem_map_of_mem _ he
  rw [runSteps_kinds] at h
  rcases List.mem_flatten.1 h with ⟨l, hl, hel⟩
  rcases List.mem_map.1 hl with ⟨_, _, rfl⟩
  simp at hel
  omega

/-- An event that is not one of the six per-step actions does not occur in
the batch loop's trace. -/
theorem not_mem_runSteps {T L : Type} {model : T → L} {f g : L → T → Scalar}
    {bs : List (Batch T)} {acc : Sums} {e : Event} (hk : 5 < e.kind) :
    e ∉ (runSteps model f g bs acc).2 := fun he => by
  have := mem_runSteps_kind_le he
  omega

/-- A latest snapshot is saved by an epoch iteration exactly for that
iteration's directory and epoch index. -/
theorem saveLatest_mem_trainEpoch {T L : Type} (model : T → L)
    (f g : L → T → Scalar) (batches : List (Batch T)) (dir : String)
    (save_every epoch : Nat) (d : String) (e : Nat) :
    Event.saveLatest d e ∈ trainEpoch model f g batches dir save_every epoch ↔
      d = dir ∧ e = epoch := by
  have hstep := @not_mem_runSteps T L model f g batches ⟨0, 0, 0⟩
    (Event.saveLatest d e) (by simp [Event.kind])
  by_cases hmod : epoch % save_every = 0 <;>
    simp [trainEpoch, hmod, hstep]

/-- A checkpoint is saved by an epoch iteration exactly when the epoch index
is divisible by the save interval. -/
theorem saveCheckpoint_mem_trainEpoch {T L : Type} (model : T → L)
    (f g : L → T → Scalar) (batches : List (Batch T)) (dir : String)
    (save_every epoch : Nat) (d : String) (e : Nat) :
    Event.saveCheckpoint d e ∈ trainEpoch model f g batches dir save_every epoch ↔
      d = dir ∧ e = epoch ∧ epoch % save_every = 0 := by
  have hstep := @not_mem_runSteps T L model f g batches ⟨0, 0, 0⟩
    (Event.saveCheckpoint d e) (by simp [Event.kind])
  by_cases hmod : epoch % save_every = 0 <;>
    simp [trainEpoch, hmod, hstep]

/-- No epoch iteration flushes the metrics writer. -/
theorem flush_not_mem_trainEpoch {T L : Type} (model : T → L)
    (f g : L → T → Scalar) (batches : List (Batch T)) (dir : String)
    (save_every epoch : Nat) :
    Event.flush ∉ trainEpoch model f g batches dir save_every epoch := by
  have hstep := @not_mem_runSteps T L model f g batches ⟨0, 0, 0⟩
    Event.flush (by simp [Event.kind])
  by_cases hmod : epoch % save_every = 0 <;>
    simp [trainEpoch, hmod, hstep]

/-- The scalar metrics emitted by an epoch iteration are exactly the three
running sums of that iteration's batch loop, tagged by its epoch index. -/
theorem addScalar_mem_trainEpoch {T L : Type} (model : T → L)
    (f g : L → T → Scalar) (batches : List (Batch T)) (dir : String)
    (save_every epoch : Nat) (tag : String) (v : Scalar) (e : Nat) :
    Event.addScalar tag v e ∈ trainEpoch model f g batches dir save_every epoch ↔
      e = epoch ∧
      ((tag = "Loss/overall" ∧
          v = (runSteps model f g batches ⟨0, 0, 0⟩).1.running_loss) ∨
       (tag = "Loss/dice" ∧
          v = (runSteps model f g batches ⟨0, 0, 0⟩).1.dice_loss) ∨
       (tag = "Loss/focal" ∧
          v = (runSteps model f g batches ⟨0, 0, 0⟩).1.focal_loss)) := by
  have hstep := @not_mem_runSteps T L model f g batches ⟨0, 0, 0⟩
    (Event.addScalar tag v e) (by simp [Event.kind])
  by_cases hmod : epoch % save_every = 0 <;>
    simp [trainEpoch, hmod, hstep] <;> tauto

/-- The training loop saves a latest snapshot exactly once per epoch index
1..epochs, always into the experiment directory. -/
theorem saveLatest_mem_train {T L : Type} (model : T → L) (f g : L → T → Scalar)
    (loader : Nat → List (Batch T)) (epochs : Nat) (dir : String)
    (save_every : Nat) (d : String) (e : Nat) :
    Event.saveLatest d e ∈ train model f g loader epochs dir save_every ↔
      d = dir ∧ 1 ≤ e ∧ e ≤ epochs := by
  simp only [train, List.mem_append, List.mem_flatten, List.mem_map,
    List.mem_singleton]
  constructor
  · rintro (⟨l, ⟨ep, hep, rfl⟩, hel⟩ | h)
    · obtain ⟨rfl, rfl⟩ :=
        (saveLatest_mem_trainEpoch model f g (loader ep) dir save_every ep d e).1 hel
      have h2 := List.mem_range'_1.1 hep
      exact ⟨rfl, h2.1, by omega⟩
    · exact Event.noConfusion h
  · rintro ⟨rfl, h1, h2⟩
    exact Or.inl ⟨_, ⟨e, List.mem_range'_1.2 ⟨h1, by omega⟩, rfl⟩,
      (saveLatest_mem_trainEpoch model f g (loader e) _ save_every e _ e).2
        ⟨rfl, rfl⟩⟩

/-- The training loop saves a checkpoint exactly at the epoch indices in
1..epochs divisible by the save interval. -/
theorem saveCheckpoint_mem_train {T L : Type} (model : T → L)
    (f g : L → T → Scalar) (loader : Nat → List (Batch T)) (epochs : Nat)
    (dir : String) (save_every : Nat) (d : String) (e : Nat) :
    Event.saveCheckpoint d e ∈ train model f g loader epochs dir save_every ↔
      d = dir ∧ 1 ≤ e ∧ e ≤ epochs ∧ e % save_every = 0 := by
  simp only [train, List.mem_append, List.mem_flatten, List.mem_map,
    List.mem_singleton]
  constructor
  · rintro (⟨l, ⟨ep, hep, rfl⟩, hel⟩ | h)
    · obtain ⟨rfl, rfl, hmod⟩ :=
        (saveCheckpoint_mem_trainEpoch model f g (loader ep) dir save_every ep d e).1 hel
      have h2 := List.mem_range'_1.1 hep
      exact ⟨rfl, h2.1, by omega, hmod⟩
    · exact Event.noConfusion h
  · rintro ⟨rfl, h1, h2, hmod⟩
    exact Or.inl ⟨_, ⟨e, List.mem_range'_1.2 ⟨h1, by omega⟩, rfl⟩,
      (saveCheckpoint_mem_trainEpoch model f g (loader e) _ save_every e _ e).2
        ⟨rfl, rfl, hmod⟩⟩

/-- The epoch-loop portion of the training trace contains no flush. -/
theorem flush_not_mem_train_body {T L : Type} (model : T → L)
    (f g : L → T → Scalar) (loader : Nat → List (Batch T)) (epochs : Nat)
    (dir : String) (save_every : Nat) :
    Event.flush ∉
      ((List.range' 1 epochs).map fun epoch =>
        trainEpoch model f g (loader epoch) dir save_every epoch).flatten := by
  intro h
  rcases List.mem_flatten.1 h with ⟨l, hl, hel⟩
  rcases List.mem_map.1 hl with ⟨ep, _, rfl⟩
  exact flush_not_mem_trainEpoch model f g (loader ep) dir save_every ep hel

/-- The scalar metrics emitted by the training loop: at each epoch index in
1..epochs, exactly the three running sums of that epoch's batch loop. -/
theorem addScalar_mem_train {T L : Type} (model : T → L) (f g : L → T → Scalar)
    (loader : Nat → List (Batch T)) (epochs : Nat) (dir : String)
    (save_every : Nat) (tag : String) (v : Scalar) (e : Nat) :
    Event.addScalar tag v e ∈ train model f g loader epochs dir save_every ↔
      1 ≤ e ∧ e ≤ epochs ∧
      ((tag = "Loss/overall" ∧
          v = (runSteps model f g (loader e) ⟨0, 0, 0⟩).1.running_loss) ∨
       (tag = "Loss/dice" ∧
          v = (runSteps model f g (loader e) ⟨0, 0, 0⟩).1.dice_loss) ∨
       (tag = "Loss/focal" ∧
          v = (runSteps model f g (loader e) ⟨0, 0, 0⟩).1.focal_loss)) := by
  simp only [train, List.mem_append, List.mem_flatten, List.mem_map,
    List.mem_singleton]
  constructor
  · rintro (⟨l, ⟨ep, hep, rfl⟩, hel⟩ | h)
    · obtain ⟨rfl, hval⟩ :=
        (addScalar_mem_trainEpoch model f g (loader ep) dir save_every ep tag v e).1 hel
      have h2 := List.mem_range'_1.1 hep
      exact ⟨h2.1, by omega, hval⟩
    · exact Event.noConfusion h
  · rintro ⟨h1, h2, hval⟩
    exact Or.inl ⟨_, ⟨e, List.mem_range'_1.2 ⟨h1, by omega⟩, rfl⟩,
      (addScalar_mem_trainEpoch model f g (loader e) dir save_every e tag v e).2
        ⟨rfl, hval⟩⟩

/-- Claim C4: for every run with epochs ≥ 1 and save_every ≥ 1, the training
loop iterates over the epoch indices 1..epochs; the latest snapshot is saved
at every epoch 1..epochs, and a checkpoint is saved exactly at the epochs
with epoch mod save_every = 0 and at no other epoch. -/
theorem C4_checkpoint_schedule {T L : Type} (model : T → L)
    (f g : L → T → Scalar) (loader : Nat → List (Batch T)) (epochs : Nat)
    (dir : String) (save_every : Nat) (h1 : 1 ≤ epochs) (h2 : 1 ≤ save_every)
    (e : Nat) :
    (Event.saveLatest dir e ∈ train model f g loader epochs dir save_every ↔
      1 ≤ e ∧ e ≤ epochs) ∧
    (Event.saveCheckpoint dir e ∈ train model f g loader epochs dir save_every ↔
      1 ≤ e ∧ e ≤ epochs ∧ e % save_every = 0) := by
  constructor
  · rw [saveLatest_mem_train]
    tauto
  · rw [saveCheckpoint_mem_train]
    tauto

/-- Claim C4 witness: with save_every = 5 and epochs = 12 there is a
checkpoint at epochs 5 and 10 only (7 shown as a non-example), while the
latest snapshot is written at epoch 7 as at every epoch. -/
theorem C4_checkpoint_schedule_witness :
    Event.saveCheckpoint "exp" 10 ∈
      train (fun _ : Unit => ()) (fun _ _ => (0 : Scalar)) (fun _ _ => 0)
        (fun _ => []) 12 "exp" 5 ∧
    Event.saveCheckpoint "exp" 7 ∉
      train (fun _ : Unit => ()) (fun _ _ => (0 : Scalar)) (fun _ _ => 0)
        (fun _ => []) 12 "exp" 5 ∧
    Event.saveLatest "exp" 7 ∈
      train (fun _ : Unit => ()) (fun _ _ => (0 : Scalar)) (fun _ _ => 0)
        (fun _ => []) 12 "exp" 5 := by
  refine ⟨?_, ?_, ?_⟩
  · exact (C4_checkpoint_schedule (fun _ : Unit => ()) (fun _ _ => 0) (fun _ _ => 0)
      (fun _ => []) 12 "exp" 5 (by decide) (by decide) 10).2.mpr (by decide)
  · intro h
    have := (C4_checkpoint_schedule (fun _ : Unit => ()) (fun _ _ => 0) (fun _ _ => 0)
      (fun _ => []) 12 "exp" 5 (by decide) (by decide) 7).2.mp h
    omega
  · exact (C4_checkpoint_schedule (fun _ : Unit => ()) (fun _ _ => 0) (fun _ _ => 0)
      (fun _ => []) 12 "exp" 5 (by decide) (by decide) 7).1.mpr (by decide)

/-- Claim C5: every training step performs, in this order: zero the
gradients, forward pass, computation of the combined loss from the criterion
and focal components, backward pass, optimizer step, and then accumulation
of the three running sums; over a batch list the accumulated sums are the
per-batch sums of the combined, criterion and focal losses. -/
theorem C5_step_order {T L : Type} (model : T → L) (f g : L → T → Scalar)
    (acc : Sums) (d : Batch T) (batches : List (Batch T)) :
    (trainStep model f g acc d).2 =
      [Event.zeroGrad, Event.forward,
       Event.computeLoss (batchLoss1 model f d) (batchLoss2 model g d)
         (batchLoss1 model f d + batchLoss2 model g d),
       Event.backward (batchLoss1 model f d + batchLoss2 model g d),
       Event.optimStep,
       Event.accumulate
         (acc.running_loss + (batchLoss1 model f d + batchLoss2 model g d))
         (acc.dice_loss + batchLoss1 model f d)
         (acc.focal_loss + batchLoss2 model g d)] ∧
    (runSteps model f g batches acc).1 =
      ⟨acc.running_loss +
         ((batches.map fun x => batchLoss1 model f x + batchLoss2 model g x).sum),
       acc.dice_loss + ((batches.map (batchLoss1 model f)).sum),
       acc.focal_loss + ((batches.map (batchLoss2 model g)).sum)⟩ :=
  ⟨rfl, runSteps_fst model f g batches acc⟩

/-- Claim C8: the metrics writer is flushed exactly once, as the final event
after the last epoch, and never inside the epoch loop. -/
theorem C8_single_flush {T L : Type} (model : T → L) (f g : L → T → Scalar)
    (loader : Nat → List (Batch T)) (epochs : Nat) (dir : String)
    (save_every : Nat) :
    ∃ body : List Event,
      train model f g loader epochs dir save_every = body ++ [Event.flush] ∧
      Event.flush ∉ body ∧
      (train model f g loader epochs dir save_every).count Event.flush = 1 := by
  refine ⟨_, rfl, flush_not_mem_train_body model f g loader epochs dir save_every, ?_⟩
  rw [train, List.count_append,
    List.count_eq_zero.2 (flush_not_mem_train_body model f g loader epochs dir save_every)]
  simp

/-- Claim C10: the three running sums are reset to zero at the start of each
epoch, so any metric value emitted at epoch e aggregates exactly the batches
of epoch e's pass of the loader, with no carry-over from earlier epochs. -/
theorem C10_epoch_local_metrics {T L : Type} (model : T → L)
    (f g : L → T → Scalar) (loader : Nat → List (Batch T)) (epochs : Nat)
    (dir : String) (save_every : Nat) (tag : String) (v : Scalar) (e : Nat)
    (hmem : Event.addScalar tag v e ∈ train model f g loader epochs dir save_every) :
    (tag = "Loss/overall" →
      v = ((loader e).map fun d => batchLoss1 model f d + batchLoss2 model g d).sum) ∧
    (tag = "Loss/dice" → v = ((loader e).map (batchLoss1 model f)).sum) ∧
    (tag = "Loss/focal" → v = ((loader e).map (batchLoss2 model g)).sum) := by
  obtain ⟨-, -, hval⟩ :=
    (addScalar_mem_train model f g loader epochs dir save_every tag v e).1 hmem
  rw [runSteps_fst] at hval
  simp only [zero_add] at hval
  rcases hval with ⟨rfl, rfl⟩ | ⟨rfl, rfl⟩ | ⟨rfl, rfl⟩
  · exact ⟨fun _ => rfl, fun hh => absurd hh (by decide), fun hh => absurd hh (by decide)⟩
  · exact ⟨fun hh => absurd hh (by decide), fun _ => rfl, fun hh => absurd hh (by decide)⟩
  · exact ⟨fun hh => absurd hh (by decide), fun hh => absurd hh (by decide), fun _ => rfl⟩

/-- Claim C10 witness: in a one-epoch run over one batch with the criterion
returning 3 and the focal loss returning 5, the event tagged Loss/dice with
value 3 at epoch 1 occurs in the trace, and the claim's conclusion holds for
it: the value 3 is the dice sum over exactly that epoch's single batch. -/
theorem C10_epoch_local_metrics_witness :
    (3 : Scalar) = (((fun _ : Nat => [(⟨(), ()⟩ : Batch Unit)]) 1).map
      (batchLoss1 (fun _ : Unit => ()) (fun _ _ => (3 : Scalar)))).sum :=
  (C10_epoch_local_metrics (fun _ : Unit => ()) (fun _ _ => (3 : Scalar))
    (fun _ _ => (5 : Scalar)) (fun _ => [⟨(), ()⟩]) 1 "exp" 1 "Loss/dice" 3 1
    (by decide)).2.1 rfl

/-- Claim C1 counterexample: run `main` on a Dice configuration with the
environment whose criterion, weighted focal and framework focal losses
return the distinguishable constants 1, 4 and 9. The loss passed to backward
on the single batch is 10 = 1 + 9 (criterion + framework focal); the claimed
three-component sum 14 = 1 + 4 + 9 is backpropagated nowhere. The weighted
focal loss is imported but never evaluated in the objective. -/
theorem C1_three_term_counterexample :
    Event.backward 10 ∈ (main envU (fsWith (specsWith "Dice")) ⟨0, 0, 0⟩ ⟨"exp"⟩).2 ∧
    Event.backward 14 ∉ (main envU (fsWith (specsWith "Dice")) ⟨0, 0, 0⟩ ⟨"exp"⟩).2 ∧
    (main envU (fsWith (specsWith "Dice")) ⟨0, 0, 0⟩ ⟨"exp"⟩).2.filter
      Event.isBackward = [Event.backward 10] := by
  decide

/-- Claim C1 amended: for every batch, the combined per-step objective that
is backpropagated is a structural sum of two components: the selected
criterion's loss and the framework-provided focal loss with mean reduction;
each step's trace contains exactly one backward pass, carrying that
two-term sum. -/
theorem C1_two_term_objective {T L : Type} (model : T → L)
    (loss_fn s_focal : L → T → Scalar) (acc : Sums) (d : Batch T) :
    (trainStep model loss_fn s_focal acc d).2.filter Event.isBackward =
      [Event.backward
        (batchLoss1 model loss_fn d + batchLoss2 model s_focal d)] := by
  simp [trainStep, Event.isBackward, batchLoss1, batchLoss2, List.filter]

/-- Every event preceding the loss-function check is a seeding, a directory
creation, a configuration load, a print, or the model or optimizer
construction. -/
theorem kinds_preEvents {fs : FS} {args : Args} {specs : Specs} {e : Event}
    (he : e ∈ preEvents fs args specs) :
    e.kind = 12 ∨ e.kind = 13 ∨ e.kind = 14 ∨ e.kind = 15 ∨ e.kind = 16 ∨
    e.kind = 7 ∨ e.kind = 17 ∨ e.kind = 18 := by
  rcases List.mem_append.1 he with h | h
  · rcases List.mem_append.1 h with h | h
    · rcases List.mem_append.1 h with h | h
      · simp only [List.mem_cons, List.not_mem_nil, or_false] at h
        rcases h with rfl | rfl | rfl <;> simp [Event.kind]
      · have := mem_mkdirEvents h
        omega
    · simp only [List.mem_cons, List.not_mem_nil, or_false] at h
      rcases h with rfl | rfl | rfl <;> simp [Event.kind]
  · simp only [List.mem_cons, List.not_mem_nil, or_false] at h
    rcases h with rfl | rfl <;> simp [Event.kind]

/-- Shape of `main` when the experiment directory is missing: print the
error and return the sentinel 0. -/
theorem main_missing_dir {T L : Type} (env : Env T L) (fs : FS)
    (rng : RngState) (args : Args) (h : fs.isdir args.exp_dir = false) :
    main env fs rng args =
      (.sentinel 0,
       [Event.seedNumpy 2020, Event.seedTorch 2020, Event.seedTorchCuda 2020,
        Event.printLine ("[ERROR] Experiment dir " ++ args.exp_dir ++
          " does not exist!")]) := by
  simp only [main]
  rw [if_pos h]
  rfl

/-- Shape of `main` when the experiment directory exists but specs.json is
missing: the FileNotFoundError propagates after only the seedings and the
conditional directory creations. -/
theorem main_no_specs {T L : Type} (env : Env T L) (fs : FS) (rng : RngState)
    (args : Args) (hdir : fs.isdir args.exp_dir = true)
    (hspecs : fs.specsFile (joinPath args.exp_dir "specs.json") = none) :
    main env fs rng args =
      (.raised "FileNotFoundError",
       [Event.seedNumpy 2020, Event.seedTorch 2020, Event.seedTorchCuda 2020] ++
       mkdirEvents fs (joinPath args.exp_dir checkpoint_subdir)
         (joinPath args.exp_dir evaluation_subdir)) := by
  simp only [main, hspecs]
  rw [if_neg (by simp [hdir])]

/-- Shape of `main` when the configuration's LossFunction is neither Dice
nor BCE: the model and optimizer are already constructed, then the error is
printed and the sentinel 0 returned. -/
theorem main_unrecognized {T L : Type} (env : Env T L) (fs : FS)
    (rng : RngState) (args : Args) (specs : Specs)
    (hdir : fs.isdir args.exp_dir = true)
    (hspecs : fs.specsFile (joinPath args.exp_dir "specs.json") = some specs)
    (hd : specs.LossFunction ≠ "Dice") (hb : specs.LossFunction ≠ "BCE") :
    main env fs rng args =
      (.sentinel 0,
       preEvents fs args specs ++
       [Event.printLine "Loss function specified in experiment specs.json is not recognized!"]) := by
  simp only [main, hspecs]
  rw [if_neg (by simp [hdir]), if_neg hd, if_neg hb]

/-- Shape of `main` on a Dice configuration: after the pre-construction
events and the criterion print, the loader and writer are constructed and
`train` runs with the Dice criterion, the seeded model and the seeded
loader. -/
theorem main_dice {T L : Type} (env : Env T L) (fs : FS) (rng : RngState)
    (args : Args) (specs : Specs) (hdir : fs.isdir args.exp_dir = true)
    (hspecs : fs.specsFile (joinPath args.exp_dir "specs.json") = some specs)
    (hlf : specs.LossFunction = "Dice") :
    main env fs rng args =
      (.normal,
       (preEvents fs args specs ++
        [Event.printLine "Using the DiceLoss as the loss function"]) ++
       [Event.constructLoader (joinPath specs.DataSource "images")
          (joinPath specs.DataSource "labels"),
        Event.printLine "Begin Training.......",
        Event.constructWriter args.exp_dir] ++
       train (env.unet2d 2020 2020) env.diceLoss env.sigmoid_focal_loss
         (fun epoch => env.sk_loader (joinPath specs.DataSource "images")
           (joinPath specs.DataSource "labels") specs.BatchSize specs.Debug
           specs.NumDebug 2020 epoch) specs.Epochs args.exp_dir
         specs.SaveEvery) := by
  simp only [main, mainRun, hspecs]
  rw [if_neg (by simp [hdir]), if_pos hlf]

/-- Shape of `main` on a BCE configuration: as for Dice, with the
BCEWithLogits criterion. -/
theorem main_bce {T L : Type} (env : Env T L) (fs : FS) (rng : RngState)
    (args : Args) (specs : Specs) (hdir : fs.isdir args.exp_dir = true)
    (hspecs : fs.specsFile (joinPath args.exp_dir "specs.json") = some specs)
    (hlf : specs.LossFunction = "BCE") :
    main env fs rng args =
      (.normal,
       (preEvents fs args specs ++
        [Event.printLine "Using the BCEWithLogits as the loss function"]) ++
       [Event.constructLoader (joinPath specs.DataSource "images")
          (joinPath specs.DataSource "labels"),
        Event.printLine "Begin Training.......",
        Event.constructWriter args.exp_dir] ++
       train (env.unet2d 2020 2020) env.bceWithLogitsLoss env.sigmoid_focal_loss
         (fun epoch => env.sk_loader (joinPath specs.DataSource "images")
           (joinPath specs.DataSource "labels") specs.BatchSize specs.Debug
           specs.NumDebug 2020 epoch) specs.Epochs args.exp_dir
         specs.SaveEvery) := by
  simp only [main, mainRun, hspecs]
  rw [if_neg (by simp [hdir]), if_neg (by rw [hlf]; decide), if_pos hlf]

/-- Claim C2 counterexample: run `main` on a configuration whose
LossFunction is "Huber". The sentinel 0 is returned and the error printed,
but the trace contains the model and optimizer constructions: they happen
before the loss-function check, contradicting "does not attempt to construct
a model, an optimizer, or a data loader". -/
theorem C2_constructs_model_counterexample :
    (main envU (fsWith (specsWith "Huber")) ⟨0, 0, 0⟩ ⟨"exp"⟩).1 =
      MainOutcome.sentinel 0 ∧
    Event.constructModel ∈
      (main envU (fsWith (specsWith "Huber")) ⟨0, 0, 0⟩ ⟨"exp"⟩).2 ∧
    Event.constructOptimizer 1 ∈
      (main envU (fsWith (specsWith "Huber")) ⟨0, 0, 0⟩ ⟨"exp"⟩).2 := by
  decide

/-- Claim C2 amended: for every configuration whose LossFunction is neither
"Dice" nor "BCE", the entry point prints the error and returns the sentinel
0 rather than raising, and it does not construct a data loader or a metrics
writer and runs no training step; the model and the optimizer, however, have
already been constructed before the check. -/
theorem C2_unrecognized_loss {T L : Type} (env : Env T L) (fs : FS)
    (rng : RngState) (args : Args) (specs : Specs)
    (hdir : fs.isdir args.exp_dir = true)
    (hspecs : fs.specsFile (joinPath args.exp_dir "specs.json") = some specs)
    (hd : specs.LossFunction ≠ "Dice") (hb : specs.LossFunction ≠ "BCE") :
    (main env fs rng args).1 = MainOutcome.sentinel 0 ∧
    Event.printLine "Loss function specified in experiment specs.json is not recognized!"
      ∈ (main env fs rng args).2 ∧
    Event.constructModel ∈ (main env fs rng args).2 ∧
    Event.constructOptimizer specs.LearningRate ∈ (main env fs rng args).2 ∧
    (∀ i l, Event.constructLoader i l ∉ (main env fs rng args).2) ∧
    (∀ w, Event.constructWriter w ∉ (main env fs rng args).2) ∧
    Event.zeroGrad ∉ (main env fs rng args).2 ∧
    Event.flush ∉ (main env fs rng args).2 := by
  rw [main_unrecognized env fs rng args specs hdir hspecs hd hb]
  refine ⟨rfl, by simp, by simp [preEvents], by simp [preEvents], ?_, ?_, ?_, ?_⟩
  · intro i l h
    rcases List.mem_append.1 h with h | h
    · have := kinds_preEvents h
      simp [Event.kind] at this
    · simp at h
  · intro w h
    rcases List.mem_append.1 h with h | h
    · have := kinds_preEvents h
      simp [Event.kind] at this
    · simp at h
  · intro h
    rcases List.mem_append.1 h with h | h
    · have := kinds_preEvents h
      simp [Event.kind] at this
    · simp at h
  · intro h
    rcases List.mem_append.1 h with h | h
    · have := kinds_preEvents h
      simp [Event.kind] at this
    · simp at h

/-- Claim C2 witness: the amended claim evaluated on the "Huber"
configuration over the concrete unit environment. -/
theorem C2_unrecognized_loss_witness :
    (main envU (fsWith (specsWith "Huber")) ⟨0, 0, 0⟩ ⟨"exp"⟩).1 =
      MainOutcome.sentinel 0 ∧
    Event.printLine "Loss function specified in experiment specs.json is not recognized!"
      ∈ (main envU (fsWith (specsWith "Huber")) ⟨0, 0, 0⟩ ⟨"exp"⟩).2 ∧
    Event.constructModel ∈
      (main envU (fsWith (specsWith "Huber")) ⟨0, 0, 0⟩ ⟨"exp"⟩).2 ∧
    Event.constructOptimizer (specsWith "Huber").LearningRate ∈
      (main envU (fsWith (specsWith "Huber")) ⟨0, 0, 0⟩ ⟨"exp"⟩).2 ∧
    Event.constructLoader "data/images" "data/labels" ∉
      (main envU (fsWith (specsWith "Huber")) ⟨0, 0, 0⟩ ⟨"exp"⟩).2 ∧
    Event.constructWriter "exp" ∉
      (main envU (fsWith (specsWith "Huber")) ⟨0, 0, 0⟩ ⟨"exp"⟩).2 ∧
    Event.zeroGrad ∉ (main envU (fsWith (specsWith "Huber")) ⟨0, 0, 0⟩ ⟨"exp"⟩).2 ∧
    Event.flush ∉ (main envU (fsWith (specsWith "Huber")) ⟨0, 0, 0⟩ ⟨"exp"⟩).2 := by
  have h := C2_unrecognized_loss envU (fsWith (specsWith "Huber")) ⟨0, 0, 0⟩
    ⟨"exp"⟩ (specsWith "Huber") rfl rfl (by decide) (by decide)
  exact ⟨h.1, h.2.1, h.2.2.1, h.2.2.2.1,
    h.2.2.2.2.1 "data/images" "data/labels", h.2.2.2.2.2.1 "exp",
    h.2.2.2.2.2.2.1, h.2.2.2.2.2.2.2⟩

/-- Claim C3 counterexample: run `main` on a filesystem where the experiment
directory exists but no specs.json is found. The run ends in the uncaught
FileNotFoundError, and the trace is exactly the three seedings — in
particular nothing is printed, contradicting "prints an error ... failing
fast rather than raising an uncaught exception". -/
theorem C3_missing_specs_counterexample :
    (main envU fsNoSpecs ⟨0, 0, 0⟩ ⟨"exp"⟩).1 =
      MainOutcome.raised "FileNotFoundError" ∧
    (main envU fsNoSpecs ⟨0, 0, 0⟩ ⟨"exp"⟩).2 =
      [Event.seedNumpy 2020, Event.seedTorch 2020, Event.seedTorchCuda 2020] := by
  decide

/-- Claim C3 amended: for every existing experiment directory without a
specs.json, the entry point raises an uncaught FileNotFoundError — it prints
nothing and returns no sentinel — and it does not construct a model, an
optimizer, or a data loader. -/
theorem C3_missing_specs_raises {T L : Type} (env : Env T L) (fs : FS)
    (rng : RngState) (args : Args) (hdir : fs.isdir args.exp_dir = true)
    (hspecs : fs.specsFile (joinPath args.exp_dir "specs.json") = none) :
    (main env fs rng args).1 = MainOutcome.raised "FileNotFoundError" ∧
    (∀ v, (main env fs rng args).1 ≠ MainOutcome.sentinel v) ∧
    (∀ m, Event.printLine m ∉ (main env fs rng args).2) ∧
    Event.constructModel ∉ (main env fs rng args).2 ∧
    (∀ lr, Event.constructOptimizer lr ∉ (main env fs rng args).2) ∧
    (∀ i l, Event.constructLoader i l ∉ (main env fs rng args).2) ∧
    (∀ w, Event.constructWriter w ∉ (main env fs rng args).2) := by
  rw [main_no_specs env fs rng args hdir hspecs]
  refine ⟨rfl, fun v h => by simp at h, ?_, ?_, ?_, ?_, ?_⟩
  · intro m h
    rcases List.mem_append.1 h with h | h
    · simp at h
    · have := mem_mkdirEvents h
      simp [Event.kind] at this
  · intro h
    rcases List.mem_append.1 h with h | h
    · simp at h
    · have := mem_mkdirEvents h
      simp [Event.kind] at this
  · intro lr h
    rcases List.mem_append.1 h with h | h
    · simp at h
    · have := mem_mkdirEvents h
      simp [Event.kind] at this
  · intro i l h
    rcases List.mem_append.1 h with h | h
    · simp at h
    · have := mem_mkdirEvents h
      simp [Event.kind] at this
  · intro w h
    rcases List.mem_append.1 h with h | h
    · simp at h
    · have := mem_mkdirEvents h
      simp [Event.kind] at this

/-- Claim C3 witness: the amended claim evaluated on the concrete
filesystem with directories but no specs.json. -/
theorem C3_missing_specs_raises_witness :
    (main envU fsNoSpecs ⟨0, 0, 0⟩ ⟨"exp"⟩).1 =
      MainOutcome.raised "FileNotFoundError" ∧
    (main envU fsNoSpecs ⟨0, 0, 0⟩ ⟨"exp"⟩).1 ≠ MainOutcome.sentinel 0 ∧
    Event.printLine "[ERROR] specs.json does not exist!" ∉
      (main envU fsNoSpecs ⟨0, 0, 0⟩ ⟨"exp"⟩).2 ∧
    Event.constructModel ∉ (main envU fsNoSpecs ⟨0, 0, 0⟩ ⟨"exp"⟩).2 ∧
    Event.constructOptimizer 1 ∉ (main envU fsNoSpecs ⟨0, 0, 0⟩ ⟨"exp"⟩).2 ∧
    Event.constructLoader "data/images" "data/labels" ∉
      (main envU fsNoSpecs ⟨0, 0, 0⟩ ⟨"exp"⟩).2 ∧
    Event.constructWriter "exp" ∉ (main envU fsNoSpecs ⟨0, 0, 0⟩ ⟨"exp"⟩).2 := by
  have h := C3_missing_specs_raises envU fsNoSpecs ⟨0, 0, 0⟩ ⟨"exp"⟩ rfl rfl
  exact ⟨h.1, h.2.1 0, h.2.2.1 "[ERROR] specs.json does not exist!",
    h.2.2.2.1, h.2.2.2.2.1 1, h.2.2.2.2.2.1 "data/images" "data/labels",
    h.2.2.2.2.2.2 "exp"⟩

/-- Claim C6: for every missing experiment directory, the entry point prints
the error and returns the sentinel 0 rather than raising, and none of the
subsequent setup happens: no directory creation, no configuration load, no
model, optimizer, loader or writer construction, and no training step. -/
theorem C6_missing_dir_fail_fast {T L : Type} (env : Env T L) (fs : FS)
    (rng : RngState) (args : Args) (h : fs.isdir args.exp_dir = false) :
    (main env fs rng args).1 = MainOutcome.sentinel 0 ∧
    (main env fs rng args).2 =
      [Event.seedNumpy 2020, Event.seedTorch 2020, Event.seedTorchCuda 2020,
       Event.printLine ("[ERROR] Experiment dir " ++ args.exp_dir ++
         " does not exist!")] ∧
    (∀ p, Event.makedirs p ∉ (main env fs rng args).2) ∧
    (∀ p, Event.loadSpecs p ∉ (main env fs rng args).2) ∧
    Event.constructModel ∉ (main env fs rng args).2 ∧
    (∀ lr, Event.constructOptimizer lr ∉ (main env fs rng args).2) ∧
    (∀ i l, Event.constructLoader i l ∉ (main env fs rng args).2) ∧
    (∀ w, Event.constructWriter w ∉ (main env fs rng args).2) ∧
    Event.zeroGrad ∉ (main env fs rng args).2 ∧
    Event.flush ∉ (main env fs rng args).2 := by
  rw [main_missing_dir env fs rng args h]
  refine ⟨rfl, rfl, by simp, by simp, by simp, by simp, by simp, by simp,
    by simp, by simp⟩

/-- Claim C6 witness: the claim evaluated on the concrete filesystem with no
directories. -/
theorem C6_missing_dir_fail_fast_witness :
    (main envU fsNoDir ⟨0, 0, 0⟩ ⟨"exp"⟩).1 = MainOutcome.sentinel 0 ∧
    (main envU fsNoDir ⟨0, 0, 0⟩ ⟨"exp"⟩).2 =
      [Event.seedNumpy 2020, Event.seedTorch 2020, Event.seedTorchCuda 2020,
       Event.printLine ("[ERROR] Experiment dir " ++ "exp" ++
         " does not exist!")] ∧
    Event.makedirs "exp/checkpoints" ∉ (main envU fsNoDir ⟨0, 0, 0⟩ ⟨"exp"⟩).2 ∧
    Event.loadSpecs "exp/specs.json" ∉ (main envU fsNoDir ⟨0, 0, 0⟩ ⟨"exp"⟩).2 ∧
    Event.constructModel ∉ (main envU fsNoDir ⟨0, 0, 0⟩ ⟨"exp"⟩).2 ∧
    Event.constructOptimizer 1 ∉ (main envU fsNoDir ⟨0, 0, 0⟩ ⟨"exp"⟩).2 ∧
    Event.constructLoader "data/images" "data/labels" ∉
      (main envU fsNoDir ⟨0, 0, 0⟩ ⟨"exp"⟩).2 ∧
    Event.constructWriter "exp" ∉ (main envU fsNoDir ⟨0, 0, 0⟩ ⟨"exp"⟩).2 ∧
    Event.zeroGrad ∉ (main envU fsNoDir ⟨0, 0, 0⟩ ⟨"exp"⟩).2 ∧
    Event.flush ∉ (main envU fsNoDir ⟨0, 0, 0⟩ ⟨"exp"⟩).2 := by
  have h := C6_missing_dir_fail_fast envU fsNoDir ⟨0, 0, 0⟩ ⟨"exp"⟩ rfl
  exact ⟨h.1, h.2.1, h.2.2.1 "exp/checkpoints", h.2.2.2.1 "exp/specs.json",
    h.2.2.2.2.1, h.2.2.2.2.2.1 1,
    h.2.2.2.2.2.2.1 "data/images" "data/labels", h.2.2.2.2.2.2.2.1 "exp",
    h.2.2.2.2.2.2.2.2.1, h.2.2.2.2.2.2.2.2.2⟩

/-- Claim C7: the entry point seeds the numpy, torch CPU and torch CUDA
generators with the fixed constant 2020 as its first three actions, before
any component is constructed; consequently two runs of `main` on the same
inputs but arbitrary, different initial generator states are identical —
same outcome, same trace. -/
theorem C7_seeding_determinism {T L : Type} (env : Env T L) (fs : FS)
    (args : Args) (rng rng' : RngState) :
    main env fs rng args = main env fs rng' args ∧
    ∃ rest, (main env fs rng args).2 =
      Event.seedNumpy 2020 :: Event.seedTorch 2020 ::
        Event.seedTorchCuda 2020 :: rest := by
  constructor
  · rfl
  · simp only [main]
    split
    · exact ⟨_, rfl⟩
    · split
      · exact ⟨_, rfl⟩
      · split
        · exact ⟨_, rfl⟩
        · split
          · exact ⟨_, rfl⟩
          · exact ⟨_, rfl⟩

/-- Claim C9: the per-epoch metric emitted under the tag Loss/dice is the
running sum of the selected criterion's per-batch losses, whichever
criterion the configuration selects: under LossFunction Dice it sums the
Dice losses, and under LossFunction "BCE" it sums the BCEWithLogits losses —
not Dice losses. -/
theorem C9_dice_tag_records_criterion {T L : Type} (env : Env T L) (fs : FS)
    (rng : RngState) (args : Args) (specs : Specs)
    (hdir : fs.isdir args.exp_dir = true)
    (hspecs : fs.specsFile (joinPath args.exp_dir "specs.json") = some specs)
    (v : Scalar) (e : Nat) :
    (specs.LossFunction = "Dice" →
      Event.addScalar "Loss/dice" v e ∈ (main env fs rng args).2 →
      v = ((env.sk_loader (joinPath specs.DataSource "images")
            (joinPath specs.DataSource "labels") specs.BatchSize specs.Debug
            specs.NumDebug 2020 e).map
          (batchLoss1 (env.unet2d 2020 2020) env.diceLoss)).sum) ∧
    (specs.LossFunction = "BCE" →
      Event.addScalar "Loss/dice" v e ∈ (main env fs rng args).2 →
      v = ((env.sk_loader (joinPath specs.DataSource "images")
            (joinPath specs.DataSource "labels") specs.BatchSize specs.Debug
            specs.NumDebug 2020 e).map
          (batchLoss1 (env.unet2d 2020 2020) env.bceWithLogitsLoss)).sum) := by
  constructor
  · intro hlf hmem
    rw [main_dice env fs rng args specs hdir hspecs hlf] at hmem
    rcases List.mem_append.1 hmem with hh | hh
    · rcases List.mem_append.1 hh with hh | hh
      · rcases List.mem_append.1 hh with hh | hh
        · have := kinds_preEvents hh
          simp [Event.kind] at this
        · simp at hh
      · simp at hh
    · obtain ⟨-, -, hval⟩ :=
        (addScalar_mem_train _ _ _ _ _ _ _ _ _ _).1 hh
      rcases hval with ⟨ht, -⟩ | ⟨-, hv⟩ | ⟨ht, -⟩
      · exact absurd ht (by decide)
      · rw [runSteps_fst] at hv
        simpa using hv
      · exact absurd ht (by decide)
  · intro hlf hmem
    rw [main_bce env fs rng args specs hdir hspecs hlf] at hmem
    rcases List.mem_append.1 hmem with hh | hh
    · rcases List.mem_append.1 hh with hh | hh
      · rcases List.mem_append.1 hh with hh | hh
        · have := kinds_preEvents hh
          simp [Event.kind] at this
        · simp at hh
      · simp at hh
    · obtain ⟨-, -, hval⟩ :=
        (addScalar_mem_train _ _ _ _ _ _ _ _ _ _).1 hh
      rcases hval with ⟨ht, -⟩ | ⟨-, hv⟩ | ⟨ht, -⟩
      · exact absurd ht (by decide)
      · rw [runSteps_fst] at hv
        simpa using hv
      · exact absurd ht (by decide)

/-- Claim C9 witness: on the concrete BCE configuration over the unit
environment — criterion value 3 per batch, one batch per epoch — the
Loss/dice metric of epoch 1 in the trace carries the value 3, the
BCEWithLogits sum. -/
theorem C9_dice_tag_records_criterion_witness :
    (3 : Scalar) = ((envU.sk_loader
          (joinPath (specsWith "BCE").DataSource "images")
          (joinPath (specsWith "BCE").DataSource "labels")
          (specsWith "BCE").BatchSize (specsWith "BCE").Debug
          (specsWith "BCE").NumDebug 2020 1).map
        (batchLoss1 (envU.unet2d 2020 2020) envU.bceWithLogitsLoss)).sum :=
  (C9_dice_tag_records_criterion envU (fsWith (specsWith "BCE")) ⟨0, 0, 0⟩
    ⟨"exp"⟩ (specsWith "BCE") rfl rfl 3 1).2 rfl (by decide)

end UnetSkel
